import Mathlib

/-!
Verification development for the publish-pipeline core of
tk-multi-publish2: the task-tree check-state model
(`publish_tree_widget/tree_node_task.py`), the Mari mipmaps publish hook
(`hooks/mari/publish_mipmaps.py`), and the local-properties round trip
exercised by `tests/fixtures/config/hooks/generic_local.py`.

External collaborators (Qt, OIIO, the publisher's path utilities, the
filesystem) are passed as explicit function parameters; fallible code
returns `Except`.
-/

/-- Qt check states as used by the tree widget: Unchecked, PartiallyChecked
and Checked. -/
inductive CheckState where
  | unchecked
  | partChecked
  | checked
deriving DecidableEq, Repr

/-- The flags of a publish Task relevant to the tree node: the plugin it
references (plugin names are unique per pipeline configuration, so the
descriptor is identified by its name), `enabled` (set by configuration) and
`active` (the default check state chosen at accept time). -/
structure PTask where
  plugin : String
  enabled : Bool
  active : Bool
deriving DecidableEq, Repr

/-- One task node of the publish tree widget: its Task plus the node's
stored check state. -/
structure TaskNode where
  task : PTask
  state : CheckState
deriving DecidableEq, Repr

/-- Modelled from the spec: `set_check_state_for_all_plugins` lives on the
tree widget, which is not under src/. Per the spec, the requested state is
applied to every Task in the tree sharing the same PluginDescriptor,
regardless of tree position, and to no other node. The tree's task nodes
are modelled as the flat list obtained by iterating the whole tree. -/
def set_check_state_for_all_plugins (plugin : String) (state : CheckState)
    (tree : List TaskNode) : List TaskNode :=
  tree.map (fun n => if n.task.plugin == plugin then { n with state := state } else n)

/-- `TreeNodeTask.set_check_state` (tree_node_task.py lines 61-74), acting on
the task node at index `i` of the tree. When `apply_to_all_plugins` is set
it delegates to the tree widget; otherwise, if the task is not enabled and
not active the requested state is replaced by Unchecked, and the base-class
call (`super().set_check_state(state)`, not under src/) is modelled from the
spec as storing the state on this single node. -/
def TreeNodeTask.set_check_state (tree : List TaskNode) (i : Nat)
    (state : CheckState) (apply_to_all_plugins : Bool) : List TaskNode :=
  match tree[i]? with
  | none => tree
  | some n =>
    if apply_to_all_plugins then
      set_check_state_for_all_plugins n.task.plugin state tree
    else
      let st := if !n.task.enabled && !n.task.active then CheckState.unchecked else state
      tree.set i { n with state := st }

/-- Modelled from the spec: the base-class `checked` property is not under
src/; a task node counts as checked when its stored check state is
Checked. -/
def TreeNodeBase.checked (n : TaskNode) : Bool :=
  n.state == CheckState.checked

/-- `TreeNodeTask.create_summary` (tree_node_task.py lines 100-109): the one
plugin name if the node is checked, else the empty list. -/
def TreeNodeTask.create_summary (n : TaskNode) : List String :=
  if TreeNodeBase.checked n then [n.task.plugin] else []

/-- One entry of the pipeline's configured `publish_plugins` setting, as
read by `_get_dependency_paths`: the plugin instance name and the value of
its hook setting. -/
structure PluginItem where
  name : String
  hook : String
deriving DecidableEq, Repr

/-- The errors that the hook's code paths can surface: `TankError` raised
explicitly, and the AttributeError Python raises when `.get` is called on
None. -/
inductive PubError where
  | tankError (msg : String)
  | attributeError (msg : String)
deriving DecidableEq, Repr

/-- The message of an error, as `str(e)` yields it in Python. -/
def PubError.str : PubError → String
  | .tankError m => m
  | .attributeError m => m

/-- The module constant `INPUT_PLUGIN_NAME` (publish_mipmaps.py line 40). -/
def INPUT_PLUGIN_NAME : String := "Publish Textures"

/-- `MariPublishMipmapsPlugin._get_dependency_paths` (publish_mipmaps.py
lines 283-303). `publish_plugins` is the configured plugin list;
`local_props` is the Item's `_local_properties` mapping (plugin instance key
to that instance's property mapping). Python truthiness of the found key is
its being neither None nor empty; `.get` on a missing instance key yields
None, on which the chained `.get` raises AttributeError. -/
def _get_dependency_paths (publish_plugins : List PluginItem)
    (local_props : String → Option (String → Option String)) :
    Except PubError (List (Option String)) :=
  match (publish_plugins.find? (fun p => p.name == INPUT_PLUGIN_NAME)).map (fun p => p.hook) with
  | none =>
    Except.error (PubError.tankError
      ("Publish Mipmaps needs the output of " ++ INPUT_PLUGIN_NAME ++ " to run"))
  | some k =>
    if k == "" then
      Except.error (PubError.tankError
        ("Publish Mipmaps needs the output of " ++ INPUT_PLUGIN_NAME ++ " to run"))
    else
      match local_props k with
      | none => Except.error (PubError.attributeError
          "NoneType object has no attribute get")
      | some props => Except.ok [props "publish_path"]

/-- Modelled from the spec: a plugin Task writing a value into its Item's
local scope under that plugin's configured instance key (the
local-properties write machinery is not under src/; per the spec each
plugin instance's writes are stored keyed by that instance, isolated from
other plugins). -/
def writeLocalProperty (local_props : String → Option (String → Option String))
    (key prop v : String) : String → Option (String → Option String) :=
  fun k =>
    if k == key then
      some (fun q =>
        if q == prop then some v
        else
          match local_props k with
          | some m => m q
          | none => none)
    else local_props k

/-- The per-source target-path computation inside the loop of
`create_mipmaps_for_seq` (publish_mipmaps.py lines 184-193).
`get_frame_number` and `get_path_for_frame` are the external publisher
utilities; Python truthiness of the frame means non-None and nonzero, and
truthiness of the computed target path means non-None and nonempty. -/
def frameTarget (get_frame_number : String → Option Int)
    (get_path_for_frame : String → Int → Option String)
    (target_seq_path source_path : String) : Except PubError String :=
  match get_frame_number source_path with
  | some frame =>
    if frame ≠ 0 then
      match get_path_for_frame target_seq_path frame with
      | some t =>
        if t == "" then
          Except.error (PubError.tankError ("Source path: " ++ source_path ++
            " contains a frame number, but target path: " ++ t ++ " does not."))
        else Except.ok t
      | none =>
        Except.error (PubError.tankError ("Source path: " ++ source_path ++
          " contains a frame number, but target path: None does not."))
    else Except.ok target_seq_path
  | none => Except.ok target_seq_path

/-- `MariPublishMipmapsPlugin.create_mipmaps_for_seq` (publish_mipmaps.py
lines 170-200). `_create_mipmap` wraps an external OIIO call and is passed
as the boolean-returning `create_mipmap` parameter; a false return is
logged as a warning and the target path is skipped, a true return appends
the target path. -/
def create_mipmaps_for_seq (get_frame_number : String → Option Int)
    (get_path_for_frame : String → Int → Option String)
    (create_mipmap : String → String → Bool)
    (source_paths : List String) (target_seq_path : String) :
    Except PubError (List String) :=
  match source_paths with
  | [] => Except.ok []
  | s :: rest =>
    match frameTarget get_frame_number get_path_for_frame target_seq_path s with
    | Except.error e => Except.error e
    | Except.ok t =>
      match create_mipmaps_for_seq get_frame_number get_path_for_frame create_mipmap
          rest target_seq_path with
      | Except.error e => Except.error e
      | Except.ok ps =>
        Except.ok (if create_mipmap s t then t :: ps else ps)

/-- The try-block body of `MariPublishMipmapsPlugin.publish_files`
(publish_mipmaps.py lines 141-158). `ensure_folder` (dirname plus
ensure_folder_exists) and `expand_seq` (the frame-sequence expansion built
on get_frame_sequence_path / get_sequence_path_files) are external
collaborators passed as parameters, any of which may fail. -/
def publish_files_body (target_path : String)
    (ensure_folder : String → Except PubError Unit)
    (publish_plugins : List PluginItem)
    (local_props : String → Option (String → Option String))
    (expand_seq : Option String → List String)
    (get_frame_number : String → Option Int)
    (get_path_for_frame : String → Int → Option String)
    (create_mipmap : String → String → Bool) :
    Except PubError (List String) :=
  match ensure_folder target_path with
  | Except.error e => Except.error e
  | Except.ok _ =>
    match _get_dependency_paths publish_plugins local_props with
    | Except.error e => Except.error e
    | Except.ok srcs =>
      create_mipmaps_for_seq get_frame_number get_path_for_frame create_mipmap
        ((srcs.map expand_seq).flatten) target_path

/-- `MariPublishMipmapsPlugin.publish_files` (publish_mipmaps.py lines
125-168): normalize the publish path (`normalize` models
ShotgunPath.normalize), run the try block, and re-raise any failure as a
TankError built from the Item name and `str(e)` (lines 160-162). -/
def publish_files (item_name publish_path : String)
    (normalize : String → String)
    (ensure_folder : String → Except PubError Unit)
    (publish_plugins : List PluginItem)
    (local_props : String → Option (String → Option String))
    (expand_seq : Option String → List String)
    (get_frame_number : String → Option Int)
    (get_path_for_frame : String → Int → Option String)
    (create_mipmap : String → String → Bool) :
    Except PubError (List String) :=
  let target_path := normalize publish_path
  match publish_files_body target_path ensure_folder publish_plugins local_props
      expand_seq get_frame_number get_path_for_frame create_mipmap with
  | Except.ok ps => Except.ok ps
  | Except.error e =>
    Except.error (PubError.tankError
      ("Failed to publish file for item '" ++ item_name ++ "': " ++ PubError.str e))

/-- Whether one character list begins with another. -/
def startsWithChars : List Char → List Char → Bool
  | _, [] => true
  | [], _ :: _ => false
  | a :: as, b :: bs => a == b && startsWithChars as bs

/-- Whether one character list occurs inside another. -/
def hasSubChars : List Char → List Char → Bool
  | [], sub => startsWithChars [] sub
  | a :: as, sub => startsWithChars (a :: as) sub || hasSubChars as sub

/-- Whether `sub` occurs as a substring of `s`. -/
def containsStr (s sub : String) : Bool :=
  hasSubChars s.toList sub.toList

/-- A concrete stand-in for the publisher's external `get_frame_number`
utility, used on concrete inputs: it extracts the frame number of the
sample paths of the spec's examples (a frame-0 file included). -/
def gfnExample : String → Option Int := fun s =>
  if s == "a.0000.exr" then some 0
  else if s == "a.1001.exr" then some 1001
  else if s == "a.1002.exr" then some 1002
  else none

/-- A concrete stand-in for the publisher's external `get_path_for_frame`
utility: the templated target has a frame field and substitutes the frame;
the non-templated target has none and yields None. -/
def gpfExample : String → Int → Option String := fun t n =>
  if t == "out.####.tif" then
    if n == 0 then some "out.0000.tif"
    else if n == 1001 then some "out.1001.tif"
    else if n == 1002 then some "out.1002.tif"
    else none
  else none

/-- Helper: an index with a `some` lookup is in range. -/
theorem getElemQ_lt {α : Type} (l : List α) (i : Nat) (a : α)
    (h : l[i]? = some a) : i < l.length :=
  (List.getElem?_eq_some.mp h).1

/-- C1 counterexample: a Task with enabled = false but active = true.
Requesting Checked with apply_to_all false leaves the node checked: the
degrade-to-unchecked branch fires only when the task is also not active. -/
theorem C1_counterexample :
    TreeNodeTask.set_check_state
      [{ task := { plugin := "p", enabled := false, active := true },
         state := CheckState.unchecked }] 0 CheckState.checked false
      = [{ task := { plugin := "p", enabled := false, active := true },
           state := CheckState.checked }] ∧
    TreeNodeBase.checked
      { task := { plugin := "p", enabled := false, active := true },
        state := CheckState.checked } = true := by
  constructor <;> rfl

/-- C1 (amended): for every Task with enabled = false AND active = false,
set_check_state with any requested state (and apply_to_all false) stores
Unchecked on the node: the requested state silently degrades at the point
of state assignment. -/
theorem C1_disabled_inactive_floor (tree : List TaskNode) (i : Nat) (n : TaskNode)
    (h : tree[i]? = some n) (he : n.task.enabled = false) (ha : n.task.active = false)
    (state : CheckState) :
    (TreeNodeTask.set_check_state tree i state false)[i]? =
      some { n with state := CheckState.unchecked } := by
  have hlen : i < tree.length := getElemQ_lt tree i n h
  unfold TreeNodeTask.set_check_state
  rw [h]
  simp only [Bool.false_eq_true, if_false, he, ha, Bool.not_false, Bool.and_self]
  rw [List.getElem?_set_self']
  simp [List.getElem?_eq_getElem hlen]

/-- C1 witness: concrete disabled, inactive task degrades to Unchecked. -/
theorem C1_disabled_inactive_floor_witness :
    (TreeNodeTask.set_check_state
      [{ task := { plugin := "q", enabled := false, active := false },
         state := CheckState.checked }] 0 CheckState.checked false)[0]? =
      some { task := { plugin := "q", enabled := false, active := false },
             state := CheckState.unchecked } :=
  C1_disabled_inactive_floor _ 0 _ rfl rfl rfl CheckState.checked

/-- C2: when no entry of the configured publish_plugins list bears the
requested upstream plugin name, _get_dependency_paths returns the TankError
naming the missing plugin, never a silent empty result. -/
theorem C2_unconfigured_name_raises (pps : List PluginItem)
    (lp : String → Option (String → Option String))
    (h : ∀ p ∈ pps, p.name ≠ INPUT_PLUGIN_NAME) :
    _get_dependency_paths pps lp =
      Except.error (PubError.tankError
        ("Publish Mipmaps needs the output of " ++ INPUT_PLUGIN_NAME ++ " to run")) := by
  have hf : pps.find? (fun p => p.name == INPUT_PLUGIN_NAME) = none :=
    List.find?_eq_none.mpr (fun p hp => by simpa using h p hp)
  unfold _get_dependency_paths
  rw [hf]
  rfl

/-- C2 witness: a pipeline configured with a single differently-named
plugin makes dependency resolution fail with the TankError. -/
theorem C2_witness :
    _get_dependency_paths [{ name := "Other Plugin", hook := "other_hook" }] (fun _ => none) =
      Except.error (PubError.tankError
        ("Publish Mipmaps needs the output of " ++ INPUT_PLUGIN_NAME ++ " to run")) :=
  C2_unconfigured_name_raises _ _ (by decide)

/-- C8: create_summary on a task node returns the one-element list holding
the plugin name when the node is checked, and the empty list otherwise. -/
theorem C8_create_summary (n : TaskNode) :
    (TreeNodeBase.checked n = true → TreeNodeTask.create_summary n = [n.task.plugin]) ∧
    (TreeNodeBase.checked n = false → TreeNodeTask.create_summary n = []) := by
  constructor <;> intro h <;> simp [TreeNodeTask.create_summary, h]

/-- C8 witness: a concrete checked node summarises to its plugin name. -/
theorem C8_witness :
    TreeNodeTask.create_summary
      { task := { plugin := "P", enabled := true, active := true },
        state := CheckState.checked } = ["P"] :=
  (C8_create_summary _).1 rfl

/-- C10: a source whose extracted frame number is 0 (falsy in Python) is
treated as a non-sequence source: it is converted to the literal target
path and never triggers the template-mismatch TankError, whatever
get_path_for_frame would have answered. -/
theorem C10_zero_frame_literal (get_frame_number : String → Option Int)
    (get_path_for_frame : String → Int → Option String)
    (create_mipmap : String → String → Bool)
    (s tgt : String) (rest : List String)
    (h : get_frame_number s = some 0) :
    create_mipmaps_for_seq get_frame_number get_path_for_frame create_mipmap (s :: rest) tgt =
      match create_mipmaps_for_seq get_frame_number get_path_for_frame create_mipmap rest tgt with
      | Except.ok ps => Except.ok (if create_mipmap s tgt then tgt :: ps else ps)
      | Except.error e => Except.error e := by
  have hft : frameTarget get_frame_number get_path_for_frame tgt s = Except.ok tgt := by
    unfold frameTarget
    rw [h]
    simp
  cases hr : create_mipmaps_for_seq get_frame_number get_path_for_frame create_mipmap rest tgt with
  | ok ps => simp [create_mipmaps_for_seq, hft, hr]
  | error e => simp [create_mipmaps_for_seq, hft, hr]

/-- C10 witness: the frame-0 sample source with a non-templated target is
converted to the literal target path with no error raised. -/
theorem C10_witness :
    create_mipmaps_for_seq gfnExample gpfExample (fun _ _ => true) ["a.0000.exr"] "out.tif"
      = Except.ok ["out.tif"] := by
  have h := C10_zero_frame_literal gfnExample gpfExample (fun _ _ => true)
    "a.0000.exr" "out.tif" [] rfl
  simpa using h

/-- Helper: every error raised inside frameTarget is a TankError. -/
theorem frameTarget_error_tank (gfn : String → Option Int)
    (gpf : String → Int → Option String) (tgt s : String) (e : PubError)
    (h : frameTarget gfn gpf tgt s = Except.error e) :
    ∃ m, e = PubError.tankError m := by
  unfold frameTarget at h
  cases hg : gfn s with
  | none => rw [hg] at h; simp at h
  | some n =>
    rw [hg] at h
    by_cases hn : n = 0
    · simp [hn] at h
    · simp only [hn, ne_eq, not_false_eq_true, if_true] at h
      cases hp : gpf tgt n with
      | none =>
        rw [hp] at h
        exact ⟨_, (by simpa using h.symm)⟩
      | some t =>
        rw [hp] at h
        by_cases ht : t = ""
        · simp only [ht] at h
          exact ⟨_, (by simpa using h.symm)⟩
        · have ht2 : (t == "") = false := by simpa using ht
          simp [ht2] at h

/-- C3 counterexample: the frame-0 source carries a frame number and the
target path has no frame field (substitution yields None), yet the batch
returns the literal target path instead of raising: the code tests the
frame for truthiness, and 0 is falsy. -/
theorem C3_counterexample :
    gfnExample "a.0000.exr" = some 0 ∧
    gpfExample "out.tif" 0 = none ∧
    create_mipmaps_for_seq gfnExample gpfExample (fun _ _ => true)
      ["a.0000.exr"] "out.tif" = Except.ok ["out.tif"] :=
  ⟨rfl, rfl, rfl⟩

/-- C3 (amended): for every source path in the batch whose extracted frame
number is nonzero, if substituting that frame into the target path yields
no result, the whole operation returns a TankError instead of a produced
list. -/
theorem C3_nonzero_frame_mismatch_raises (gfn : String → Option Int)
    (gpf : String → Int → Option String) (mk : String → String → Bool)
    (srcs : List String) (tgt s : String) (n : Int)
    (hs : s ∈ srcs) (hf : gfn s = some n) (hn : n ≠ 0) (hp : gpf tgt n = none) :
    ∃ m, create_mipmaps_for_seq gfn gpf mk srcs tgt =
      Except.error (PubError.tankError m) := by
  induction srcs with
  | nil => cases hs
  | cons a rest ih =>
    rcases List.mem_cons.mp hs with rfl | hmem
    · have hft : frameTarget gfn gpf tgt s =
          Except.error (PubError.tankError ("Source path: " ++ s ++
            " contains a frame number, but target path: None does not.")) := by
        unfold frameTarget
        rw [hf]
        simp [hn, hp]
      refine ⟨"Source path: " ++ s ++
        " contains a frame number, but target path: None does not.", ?_⟩
      simp [create_mipmaps_for_seq, hft]
    · obtain ⟨m, hm⟩ := ih hmem
      cases hft : frameTarget gfn gpf tgt a with
      | error e =>
        obtain ⟨m2, rfl⟩ := frameTarget_error_tank gfn gpf tgt a e hft
        exact ⟨m2, by simp [create_mipmaps_for_seq, hft]⟩
      | ok t =>
        exact ⟨m, by simp [create_mipmaps_for_seq, hft, hm]⟩

/-- C3 witness: a nonzero-frame source against the non-templated target
makes the whole batch fail with a TankError. -/
theorem C3_witness :
    ∃ m, create_mipmaps_for_seq gfnExample gpfExample (fun _ _ => true)
      ["a.1001.exr"] "out.tif" = Except.error (PubError.tankError m) :=
  C3_nonzero_frame_mismatch_raises gfnExample gpfExample (fun _ _ => true)
    ["a.1001.exr"] "out.tif" "a.1001.exr" 1001
    (List.mem_cons_self _ _) rfl (by decide) rfl

/-- C4: whenever create_mipmaps_for_seq returns a list, that list holds
exactly the target paths of the sources whose conversion succeeded, in
source order; a false conversion result only drops that one target path
and the batch continues. -/
theorem C4_batch_skips_failures (gfn : String → Option Int)
    (gpf : String → Int → Option String) (mk : String → String → Bool)
    (srcs : List String) (tgt : String) (ps : List String)
    (h : create_mipmaps_for_seq gfn gpf mk srcs tgt = Except.ok ps) :
    ps = srcs.filterMap (fun s =>
      match frameTarget gfn gpf tgt s with
      | Except.ok t => if mk s t then some t else none
      | Except.error _ => none) := by
  induction srcs generalizing ps with
  | nil =>
    simp only [create_mipmaps_for_seq, Except.ok.injEq] at h
    simp [← h]
  | cons a rest ih =>
    simp only [create_mipmaps_for_seq] at h
    cases hft : frameTarget gfn gpf tgt a with
    | error e => rw [hft] at h; simp at h
    | ok t =>
      rw [hft] at h
      cases hr : create_mipmaps_for_seq gfn gpf mk rest tgt with
      | error e => rw [hr] at h; simp at h
      | ok qs =>
        rw [hr] at h
        injection h with h2
        subst h2
        rw [List.filterMap_cons]
        simp only [hft]
        cases hmk : mk a t with
        | true => simp [hmk, ih qs hr]
        | false => simp [hmk, ih qs hr]

/-- A conversion stand-in that succeeds on the first sample source and
fails on the second. -/
def mkSkipExample : String → String → Bool := fun s _ => s == "a.1001.exr"

/-- C4 witness: with the second conversion failing, the batch returns only
the first target path, and that equals the success-filtered mapping. -/
theorem C4_witness :
    ["out.1001.tif"] = (["a.1001.exr", "a.1002.exr"]).filterMap (fun s =>
      match frameTarget gfnExample gpfExample "out.####.tif" s with
      | Except.ok t => if mkSkipExample s t then some t else none
      | Except.error _ => none) :=
  C4_batch_skips_failures gfnExample gpfExample mkSkipExample
    ["a.1001.exr", "a.1002.exr"] "out.####.tif" ["out.1001.tif"] rfl

/-- C5: if the upstream plugin writes publish_path into the Item local
scope under its configured instance key (the hook value of the
publish_plugins entry carrying the requested name), then dependency
resolution returns exactly the one-element list with that written value. -/
theorem C5_local_roundtrip (pps : List PluginItem)
    (lp : String → Option (String → Option String)) (pe : PluginItem) (p : String)
    (hfind : pps.find? (fun q => q.name == INPUT_PLUGIN_NAME) = some pe)
    (hk : pe.hook ≠ "") :
    _get_dependency_paths pps (writeLocalProperty lp pe.hook "publish_path" p) =
      Except.ok [some p] := by
  have hk2 : (pe.hook == "") = false := by simpa using hk
  unfold _get_dependency_paths
  rw [hfind]
  simp [hk2, writeLocalProperty]

/-- C5 witness: one configured plugin bearing the requested name; the value
written locally under its hook key is returned verbatim. -/
theorem C5_witness :
    _get_dependency_paths
      [{ name := "Publish Textures", hook := "publish_textures_instance" }]
      (writeLocalProperty (fun _ => none) "publish_textures_instance"
        "publish_path" "/out/tex.tif") =
      Except.ok [some "/out/tex.tif"] :=
  C5_local_roundtrip _ _
    { name := "Publish Textures", hook := "publish_textures_instance" }
    "/out/tex.tif" rfl (by decide)

/-- C6: with apply_to_all true, every task node of the tree whose plugin
equals the calling node's plugin receives the requested state, and every
other node is unchanged. -/
theorem C6_apply_all_plugins (tree : List TaskNode) (i : Nat) (nd : TaskNode)
    (state : CheckState) (h : tree[i]? = some nd) (j : Fin tree.length) :
    (TreeNodeTask.set_check_state tree i state true)[(j : Nat)]? =
      some (if (tree.get j).task.plugin == nd.task.plugin
            then { tree.get j with state := state } else tree.get j) := by
  unfold TreeNodeTask.set_check_state
  rw [h]
  simp only [if_true]
  unfold set_check_state_for_all_plugins
  rw [List.getElem?_map]
  simp [List.getElem?_eq_getElem j.isLt]

/-- C6 witness: in a three-node tree, checking plugin A from node 0 also
checks the plugin-A node at index 2. -/
theorem C6_witness :
    (TreeNodeTask.set_check_state
      [{ task := { plugin := "A", enabled := true, active := true },
         state := CheckState.unchecked },
       { task := { plugin := "B", enabled := true, active := true },
         state := CheckState.unchecked },
       { task := { plugin := "A", enabled := false, active := false },
         state := CheckState.unchecked }]
      0 CheckState.checked true)[2]? =
      some { task := { plugin := "A", enabled := false, active := false },
             state := CheckState.checked } := by
  have h := C6_apply_all_plugins
    [{ task := { plugin := "A", enabled := true, active := true },
       state := CheckState.unchecked },
     { task := { plugin := "B", enabled := true, active := true },
       state := CheckState.unchecked },
     { task := { plugin := "A", enabled := false, active := false },
       state := CheckState.unchecked }]
    0 { task := { plugin := "A", enabled := true, active := true },
        state := CheckState.unchecked }
    CheckState.checked rfl ⟨2, by decide⟩
  simpa using h

/-- Helper: frameTarget only answers Except.ok with the path obtained by
substituting a truthy (nonzero) frame, and with the literal target path
otherwise. -/
theorem frameTarget_ok_val (gfn : String → Option Int)
    (gpf : String → Int → Option String) (tgt s t : String)
    (h : frameTarget gfn gpf tgt s = Except.ok t) :
    t = match gfn s with
        | some n => if n ≠ 0 then (gpf tgt n).getD tgt else tgt
        | none => tgt := by
  unfold frameTarget at h
  cases hg : gfn s with
  | none =>
    rw [hg] at h
    simp only [Except.ok.injEq] at h
    simp [h]
  | some n =>
    rw [hg] at h
    by_cases hn : n = 0
    · subst hn
      simp only [ne_eq, not_true_eq_false, if_false, Except.ok.injEq] at h
      simp [h]
    · simp only [hn, ne_eq, not_false_eq_true, if_true] at h ⊢
      cases hp : gpf tgt n with
      | none => rw [hp] at h; simp at h
      | some u =>
        rw [hp] at h
        by_cases hu : u = ""
        · simp [hu] at h
        · have hu2 : (u == "") = false := by simpa using hu
          simp only [hu2, Bool.false_eq_true, if_false, Except.ok.injEq] at h
          simp [← h]

/-- Helper: a list starts with every prefix of itself. -/
theorem startsWithChars_self_append (n rest : List Char) :
    startsWithChars (n ++ rest) n = true := by
  induction n with
  | nil => cases rest <;> rfl
  | cons c cs ih => simp [startsWithChars, ih]

/-- Helper: a list that starts with sub contains sub. -/
theorem hasSubChars_of_startsWith (l sub : List Char)
    (h : startsWithChars l sub = true) : hasSubChars l sub = true := by
  cases l with
  | nil => simpa [hasSubChars] using h
  | cons a as => simp [hasSubChars, h]

/-- Helper: containment is preserved under consing on the left. -/
theorem hasSubChars_cons (a : Char) (as sub : List Char)
    (h : hasSubChars as sub = true) : hasSubChars (a :: as) sub = true := by
  simp [hasSubChars, h]

/-- Helper: a middle segment is contained in the surrounding list. -/
theorem hasSubChars_infix (p n rest : List Char) :
    hasSubChars (p ++ (n ++ rest)) n = true := by
  induction p with
  | nil => exact hasSubChars_of_startsWith _ _ (startsWithChars_self_append n rest)
  | cons a as ih => exact hasSubChars_cons a _ _ ih

/-- Helper: a middle string segment is a substring of the concatenation. -/
theorem containsStr_mid4 (a mid b c : String) :
    containsStr (a ++ mid ++ b ++ c) mid = true := by
  unfold containsStr
  have hl : ∀ x y : String, (x ++ y).toList = x.toList ++ y.toList := fun _ _ => rfl
  have h1 : (a ++ mid ++ b ++ c).toList
      = a.toList ++ (mid.toList ++ (b.toList ++ c.toList)) := by
    simp only [hl, List.append_assoc]
  rw [h1]
  exact hasSubChars_infix _ _ _

/-- C7 counterexample: a failure inside the try block of publish_files with
the message "disk full" is re-raised as a TankError whose message names the
Item but does not contain the target path. -/
theorem C7_counterexample :
    publish_files "itm" "/tmp/out.tif" (fun s => s)
      (fun _ => Except.error (PubError.tankError "disk full"))
      [] (fun _ => none) (fun _ => []) (fun _ => none) (fun _ _ => none)
      (fun _ _ => false)
      = Except.error (PubError.tankError
          "Failed to publish file for item 'itm': disk full") ∧
    containsStr "Failed to publish file for item 'itm': disk full" "/tmp/out.tif"
      = false ∧
    containsStr "Failed to publish file for item 'itm': disk full" "itm" = true := by
  refine ⟨rfl, by decide, by decide⟩

/-- C7 (amended): every failure of the try block of publish_files is caught
and re-raised as a single TankError whose message is exactly the fixed
wrapper text with the quoted Item name followed by the message of the
original exception; in particular the message includes the Item name, and
the wrapper adds nothing else, so the target path appears only if the
original exception message contained it. -/
theorem C7_publish_wraps_tankerror (item_name publish_path : String)
    (normalize : String → String) (ensure_folder : String → Except PubError Unit)
    (pps : List PluginItem) (lp : String → Option (String → Option String))
    (expand_seq : Option String → List String)
    (gfn : String → Option Int) (gpf : String → Int → Option String)
    (mk : String → String → Bool) (e : PubError)
    (h : publish_files_body (normalize publish_path) ensure_folder pps lp
      expand_seq gfn gpf mk = Except.error e) :
    publish_files item_name publish_path normalize ensure_folder pps lp
        expand_seq gfn gpf mk
      = Except.error (PubError.tankError
          ("Failed to publish file for item '" ++ item_name ++ "': "
            ++ PubError.str e)) ∧
    containsStr ("Failed to publish file for item '" ++ item_name ++ "': "
        ++ PubError.str e) item_name = true := by
  constructor
  · simp only [publish_files]
    rw [h]
  · exact containsStr_mid4 "Failed to publish file for item '" item_name "': "
      (PubError.str e)

/-- C7 witness: a concrete try-block failure (an AttributeError with the
message "no space") is wrapped into exactly the item-naming TankError. -/
theorem C7_witness :
    publish_files "itm2" "/p/q.tif" (fun s => s)
      (fun _ => Except.error (PubError.attributeError "no space"))
      [] (fun _ => none) (fun _ => []) (fun _ => none) (fun _ _ => none)
      (fun _ _ => false)
      = Except.error (PubError.tankError
          ("Failed to publish file for item '" ++ "itm2" ++ "': "
            ++ PubError.str (PubError.attributeError "no space"))) ∧
    containsStr ("Failed to publish file for item '" ++ "itm2" ++ "': "
        ++ PubError.str (PubError.attributeError "no space")) "itm2" = true :=
  C7_publish_wraps_tankerror "itm2" "/p/q.tif" (fun s => s)
    (fun _ => Except.error (PubError.attributeError "no space"))
    [] (fun _ => none) (fun _ => []) (fun _ => none) (fun _ _ => none)
    (fun _ _ => false) (PubError.attributeError "no space") rfl

/-- C9 counterexample: a source with frame number 0 is frame-bearing and
the template substitutes frame 0 to a concrete path, yet the batch maps
the source to the literal template path, not the substituted one. -/
theorem C9_counterexample :
    gfnExample "a.0000.exr" = some 0 ∧
    gpfExample "out.####.tif" 0 = some "out.0000.tif" ∧
    create_mipmaps_for_seq gfnExample gpfExample (fun _ _ => true)
      ["a.0000.exr"] "out.####.tif" = Except.ok ["out.####.tif"] ∧
    ("out.####.tif" : String) ≠ "out.0000.tif" :=
  ⟨rfl, rfl, rfl, by decide⟩

/-- C9 (amended): when every per-source target computation succeeds and
every conversion succeeds, create_mipmaps_for_seq maps each source with a
nonzero frame number to the path obtained by substituting that frame into
the template, and each source with no frame number or frame number 0 to
the literal target path, in source order. -/
theorem C9_frame_substitution (gfn : String → Option Int)
    (gpf : String → Int → Option String) (srcs : List String) (tgt : String)
    (h : ∀ s ∈ srcs, ∃ t, frameTarget gfn gpf tgt s = Except.ok t) :
    create_mipmaps_for_seq gfn gpf (fun _ _ => true) srcs tgt =
      Except.ok (srcs.map (fun s =>
        match gfn s with
        | some n => if n ≠ 0 then (gpf tgt n).getD tgt else tgt
        | none => tgt)) := by
  induction srcs with
  | nil => rfl
  | cons a rest ih =>
    obtain ⟨t, ht⟩ := h a (List.mem_cons_self a rest)
    have hrest := ih (fun s hs => h s (List.mem_cons_of_mem a hs))
    have hval := frameTarget_ok_val gfn gpf tgt a t ht
    simp only [create_mipmaps_for_seq]
    rw [ht, hrest]
    simp [List.map_cons, hval]

/-- C9 witness: the spec's sequence example maps frame-bearing sources to
the frame-substituted target paths. -/
theorem C9_witness :
    create_mipmaps_for_seq gfnExample gpfExample (fun _ _ => true)
      ["a.1001.exr", "a.1002.exr"] "out.####.tif"
      = Except.ok ["out.1001.tif", "out.1002.tif"] := by
  have hyp : ∀ s ∈ (["a.1001.exr", "a.1002.exr"] : List String),
      ∃ t, frameTarget gfnExample gpfExample "out.####.tif" s = Except.ok t := by
    intro s hs
    rcases List.mem_cons.mp hs with rfl | hs2
    · exact ⟨"out.1001.tif", rfl⟩
    · rcases List.mem_cons.mp hs2 with rfl | hs3
      · exact ⟨"out.1002.tif", rfl⟩
      · cases hs3
  have h := C9_frame_substitution gfnExample gpfExample
    ["a.1001.exr", "a.1002.exr"] "out.####.tif" hyp
  exact h
